import Mathlib

/-!
Shallow embedding of `src/activation_server.py` (game-assistant activation
code server).  Timestamps are modelled as natural numbers counting seconds;
one day is 86400 seconds.  `datetime.now()` becomes an explicit `now`
parameter threaded through each operation.  The two SQLite tables become
two lists of records; the `UNIQUE` constraints of the schema
(`activation_codes.code`, `device_activations.device_id`) are modelled at
the point where an `INSERT` could violate them, in which case the Python
code's `except` branch rolls the transaction back and returns a generic
failure.  `secrets.token_hex(4)` is modelled as an injected stream
`random : Nat → String` of random parts.
-/

namespace ActivationServer

/-- Seconds in one day; `timedelta(days = d)` is `d * secondsPerDay`. -/
def secondsPerDay : Nat := 86400

/-- One row of the `activation_codes` table (schema in `init_database`).
Field defaults mirror the SQL column defaults. -/
structure CodeRecord where
  code : String
  license_type : String
  duration_days : Nat
  is_used : Bool := false
  used_by_device : Option String := none
  used_at : Option Nat := none
  created_at : Nat := 0
  expires_at : Option Nat := none
  max_uses : Nat := 1
  current_uses : Nat := 0
  created_by : String := "system"
deriving DecidableEq

/-- One row of the `device_activations` table (schema in `init_database`). -/
structure DeviceRecord where
  device_id : String
  activation_code : String
  license_type : String
  activated_at : Nat := 0
  expires_at : Nat
  last_seen : Nat := 0
  is_active : Bool := true
  total_usage_days : Nat := 0
deriving DecidableEq

/-- The persistent state: the two tables of `activation.db`. -/
structure DB where
  activation_codes : List CodeRecord := []
  device_activations : List DeviceRecord := []
deriving DecidableEq

/-- Pydantic model `ActivationResponse`. -/
structure ActivationResponse where
  success : Bool
  message : String
  license_type : Option String := none
  expires_at : Option Nat := none
  days_remaining : Option Nat := none
deriving DecidableEq

/-- Pydantic model `VerificationResponse`. -/
structure VerificationResponse where
  valid : Bool
  license_type : Option String := none
  expires_at : Option Nat := none
  days_remaining : Option Nat := none
  is_trial : Bool := false
deriving DecidableEq

/-- The `prefix_map` dictionary of `generate_activation_code`. -/
def prefix_map : List (String × String) :=
  [("TRIAL_1D", "TRIAL_1D"), ("WEEK_7D", "WEEK_7D"), ("MONTH_1M", "MONTH_1M"),
   ("MONTH_3M", "MONTH_3M"), ("LIFETIME", "LIFETIME")]

/-- `generate_activation_code(license_type)`; the random part
(`secrets.token_hex(4).upper()`) is passed in explicitly. -/
def generate_activation_code (license_type random_part : String) : String :=
  ((prefix_map.lookup license_type).getD "UNKNOWN") ++ "_" ++ random_part

/-- The `duration_map` dictionary of `get_duration_days`. -/
def duration_map : List (String × Nat) :=
  [("TRIAL_1D", 1), ("WEEK_7D", 7), ("MONTH_1M", 30), ("MONTH_3M", 90),
   ("LIFETIME", 36500)]

/-- `get_duration_days(license_type)`: returns 0 for an unknown kind. -/
def get_duration_days (license_type : String) : Nat :=
  (duration_map.lookup license_type).getD 0

/-- `calculate_expiry_date(duration_days)`: `datetime.now()` is the
explicit `now` argument. -/
def calculate_expiry_date (duration_days now : Nat) : Nat :=
  if 36500 ≤ duration_days then now + 36500 * secondsPerDay
  else now + duration_days * secondsPerDay

/-- Python's `p.startswith(s)` on strings, computed on the character
lists so that it reduces definitionally. -/
def starts_with (s p : String) : Bool := p.data.isPrefixOf s.data

/-- The tuple of known code-string starts checked by
`request.activation_code.startswith((...))` in `activate_device`. -/
def valid_code_shape (code : String) : Bool :=
  ["TRIAL_1D_", "WEEK_7D_", "MONTH_1M_", "MONTH_3M_", "LIFETIME_"].any
    (fun p => starts_with code p)

/-- The `UPDATE activation_codes SET is_used = TRUE, used_by_device = ?,
used_at = CURRENT_TIMESTAMP, current_uses = current_uses + 1 WHERE code = ?`
statement: every row whose `code` matches is updated. -/
def redeem_code_update (device_id code : String) (now : Nat)
    (rs : List CodeRecord) : List CodeRecord :=
  rs.map (fun r =>
    if r.code == code then
      { r with is_used := true, used_by_device := some device_id,
               used_at := some now, current_uses := r.current_uses + 1 }
    else r)

/-- The row inserted by `INSERT INTO device_activations (device_id,
activation_code, license_type, expires_at) VALUES (?, ?, ?, ?)`. -/
def new_device_row (device_id activation_code license_type : String)
    (expires_at now : Nat) : DeviceRecord :=
  { device_id := device_id, activation_code := activation_code,
    license_type := license_type, activated_at := now,
    expires_at := expires_at, last_seen := now }

/-- `POST /api/activate` handler `activate_device`.  Returns the response
together with the database state after the handler (commit on success,
rollback on the `UNIQUE(device_id)` violation of the final `INSERT`). -/
def activate_device (db : DB) (device_id activation_code : String)
    (now : Nat) : ActivationResponse × DB :=
  if !(valid_code_shape activation_code) then
    ({ success := false, message := "兑换码格式错误" }, db)
  else
    match db.activation_codes.find?
        (fun r => r.code == activation_code && !r.is_used) with
    | none =>
        ({ success := false, message := "兑换码不存在或已被使用" }, db)
    | some code_record =>
        if code_record.expires_at.any (fun e => e < now) then
          ({ success := false, message := "兑换码已过期" }, db)
        else if code_record.max_uses ≤ code_record.current_uses then
          ({ success := false, message := "兑换码使用次数已达上限" }, db)
        else if (db.device_activations.find?
            (fun r => r.device_id == device_id && r.is_active)).isSome then
          ({ success := false, message := "该设备已激活，请勿重复激活" }, db)
        else
          let duration_days := code_record.duration_days
          let expires_at := calculate_expiry_date duration_days now
          if db.device_activations.any (fun r => r.device_id == device_id) then
            ({ success := false,
               message :=
                 "激活失败: UNIQUE constraint failed: device_activations.device_id" },
             db)
          else
            ({ success := true, message := "激活成功",
               license_type := some code_record.license_type,
               expires_at := some expires_at,
               days_remaining := some duration_days },
             { activation_codes :=
                 redeem_code_update device_id activation_code now
                   db.activation_codes,
               device_activations := db.device_activations ++
                 [new_device_row device_id activation_code
                    code_record.license_type expires_at now] })

/-- The `UPDATE device_activations SET is_active = FALSE WHERE device_id = ?`
statement of `verify_device`. -/
def deactivate_update (device_id : String) (rs : List DeviceRecord) :
    List DeviceRecord :=
  rs.map (fun r =>
    if r.device_id == device_id then { r with is_active := false } else r)

/-- The `UPDATE device_activations SET last_seen = CURRENT_TIMESTAMP WHERE
device_id = ?` statement of `verify_device`. -/
def touch_update (device_id : String) (now : Nat) (rs : List DeviceRecord) :
    List DeviceRecord :=
  rs.map (fun r =>
    if r.device_id == device_id then { r with last_seen := now } else r)

/-- `POST /api/verify` handler `verify_device`. -/
def verify_device (db : DB) (device_id : String) (now : Nat) :
    VerificationResponse × DB :=
  match db.device_activations.find?
      (fun r => r.device_id == device_id && r.is_active) with
  | none => ({ valid := false, is_trial := false }, db)
  | some device_record =>
      if device_record.expires_at < now then
        ({ valid := false, is_trial := false },
         { db with device_activations :=
             deactivate_update device_id db.device_activations })
      else
        ({ valid := true,
           license_type := some device_record.license_type,
           expires_at := some device_record.expires_at,
           days_remaining :=
             some ((device_record.expires_at - now) / secondsPerDay),
           is_trial := device_record.license_type == "TRIAL_1D" },
         { db with device_activations :=
             touch_update device_id now db.device_activations })

/-- Result of `POST /api/admin/generate-codes`: either the JSON success
payload's code list with the committed state, or an `HTTPException`
(status, detail) with the rolled-back state. -/
inductive GenerateResult where
  | ok (codes : List String) (db : DB)
  | httpError (status : Nat) (detail : String) (db : DB)
deriving DecidableEq

/-- One `INSERT INTO activation_codes (code, license_type, duration_days,
expires_at, created_by)`: fails (raises) when `UNIQUE(code)` is violated. -/
def insert_code (db : DB) (code license_type : String)
    (duration_days expires_at : Nat) (created_by : String) : Option DB :=
  if db.activation_codes.any (fun r => r.code == code) then none
  else
    some { db with activation_codes := db.activation_codes ++
      [{ code := code, license_type := license_type,
         duration_days := duration_days, expires_at := some expires_at,
         created_by := created_by }] }

/-- The `for _ in range(request.count)` loop of `generate_codes`: the
`i`-th iteration draws `random i` as its random part. -/
def generate_codes_go (license_type : String) (duration_days : Nat)
    (created_by : String) (random : Nat → String) (now : Nat) :
    Nat → Nat → DB → Option (List String × DB)
  | 0, _, db => some ([], db)
  | n + 1, i, db =>
      let code := generate_activation_code license_type (random i)
      let expires_at := calculate_expiry_date duration_days now
      match insert_code db code license_type duration_days expires_at
          created_by with
      | none => none
      | some db' =>
          match generate_codes_go license_type duration_days created_by
              random now n (i + 1) db' with
          | none => none
          | some (codes, dbf) => some (code :: codes, dbf)

/-- `POST /api/admin/generate-codes` handler `generate_codes`.  An unknown
license kind raises `HTTPException(400)` before anything is stored; a
`UNIQUE(code)` violation inside the loop raises, is caught, rolled back and
re-raised as `HTTPException(500)`. -/
def generate_codes (db : DB) (license_type : String) (count : Nat)
    (created_by : String) (random : Nat → String) (now : Nat) :
    GenerateResult :=
  let duration_days := get_duration_days license_type
  if duration_days == 0 then
    GenerateResult.httpError 400 "无效的授权类型" db
  else
    match generate_codes_go license_type duration_days created_by random
        now count 0 db with
    | none =>
        GenerateResult.httpError 500
          "UNIQUE constraint failed: activation_codes.code" db
    | some (codes, dbf) => GenerateResult.ok codes dbf

end ActivationServer

namespace ActivationServer

/-! Concrete table states used by the scenario theorems. -/

/-- A stored single-use one-day trial code. -/
def trialCode1 : CodeRecord :=
  { code := "TRIAL_1D_AAAAAAAA", license_type := "TRIAL_1D",
    duration_days := 1, expires_at := some 1000000, max_uses := 1 }

/-- A stored week code configured with a quota of two uses. -/
def weekCode2 : CodeRecord :=
  { code := "WEEK_7D_BBBBBBBB", license_type := "WEEK_7D",
    duration_days := 7, expires_at := some 1000000, max_uses := 2 }

/-- A stored month code configured with a quota of three uses. -/
def monthCode3 : CodeRecord :=
  { code := "MONTH_1M_DDDDDDDD", license_type := "MONTH_1M",
    duration_days := 30, expires_at := some 1000000, max_uses := 3 }

/-- A stored lifetime code. -/
def lifeCode1 : CodeRecord :=
  { code := "LIFETIME_CCCCCCCC", license_type := "LIFETIME",
    duration_days := 36500, expires_at := some 999999999, max_uses := 1 }

def dbC1 : DB := { activation_codes := [trialCode1] }

def dbC1a : DB := (activate_device dbC1 "d1" "TRIAL_1D_AAAAAAAA" 100).2

def dbC2 : DB := { activation_codes := [weekCode2] }

def dbC2a : DB := (activate_device dbC2 "d1" "WEEK_7D_BBBBBBBB" 100).2

def dbC2b : DB := (activate_device dbC2a "d2" "WEEK_7D_BBBBBBBB" 200).2

def dbC3 : DB := { activation_codes := [monthCode3] }

def dbC3a : DB := (activate_device dbC3 "d1" "MONTH_1M_DDDDDDDD" 100).2

def dbC4 : DB := { activation_codes := [trialCode1, lifeCode1] }

def dbC4a : DB := (activate_device dbC4 "d1" "TRIAL_1D_AAAAAAAA" 1000).2

def dbC4b : DB := (verify_device dbC4a "d1" (1000 + 2 * 86400)).2

/-- C1 counterexample: with `maxUses = 1`, after `d1` redeems the trial code
via `activate`, the second `activate` by `d2` is rejected with the
"code not found or already used" message — the `SELECT ... AND is_used = FALSE`
lookup fails — and not with the quota-exhausted message the claim names. -/
theorem C1_counterexample :
    (activate_device dbC1 "d1" "TRIAL_1D_AAAAAAAA" 100).1.success = true ∧
    trialCode1.max_uses = 1 ∧
    (activate_device dbC1a "d2" "TRIAL_1D_AAAAAAAA" 200).1.success = false ∧
    (activate_device dbC1a "d2" "TRIAL_1D_AAAAAAAA" 200).1.message
      = "兑换码不存在或已被使用" ∧
    ¬ (activate_device dbC1a "d2" "TRIAL_1D_AAAAAAAA" 200).1.message
        = "兑换码使用次数已达上限" := by decide

/-- C2: a code whose `max_uses` is 2 admits only one success: the first
`activate` sets `is_used = TRUE`, so the second and third attempts both fail
at the lookup with the not-found message — one success and two rejections
instead of two successes and one quota rejection, and neither rejection
carries the quota-exhausted message. -/
theorem C2_theorem :
    weekCode2.max_uses = 2 ∧
    (activate_device dbC2 "d1" "WEEK_7D_BBBBBBBB" 100).1.success = true ∧
    (activate_device dbC2a "d2" "WEEK_7D_BBBBBBBB" 200).1
      = { success := false, message := "兑换码不存在或已被使用" } ∧
    (activate_device dbC2b "d3" "WEEK_7D_BBBBBBBB" 300).1
      = { success := false, message := "兑换码不存在或已被使用" } := by decide

/-- C3: after one successful redemption of a code with `max_uses = 3`, the
stored row has `is_used = true` even though `current_uses = 1 < 3 = max_uses`,
so the claimed equivalence between the flag and quota exhaustion fails, and
the code is no longer redeemable (the lookup excludes used rows). -/
theorem C3_theorem :
    (activate_device dbC3 "d1" "MONTH_1M_DDDDDDDD" 100).1.success = true ∧
    dbC3a.activation_codes.find? (fun r => r.code == "MONTH_1M_DDDDDDDD")
      = some { monthCode3 with is_used := true, used_by_device := some "d1", used_at := some 100, current_uses := 1 } ∧
    1 < monthCode3.max_uses ∧
    (activate_device dbC3a "d2" "MONTH_1M_DDDDDDDD" 200).1
      = { success := false, message := "兑换码不存在或已被使用" } := by decide

/-- C4: a device whose trial binding has lapsed (verify marked it inactive)
cannot re-activate with a fresh valid code: `device_activations.device_id`
is `UNIQUE` and the handler uses a plain `INSERT`, so the insert raises, the
transaction is rolled back, and the caller gets the generic failure —
even though the store does hold an inactive (not absent) binding. -/
theorem C4_theorem :
    (activate_device dbC4 "d1" "TRIAL_1D_AAAAAAAA" 1000).1.success = true ∧
    (verify_device dbC4a "d1" (1000 + 2 * 86400)).1.valid = false ∧
    (dbC4b.device_activations.find? (fun r => r.device_id == "d1")).isSome
      = true ∧
    dbC4b.device_activations.find?
      (fun r => r.device_id == "d1" && r.is_active) = none ∧
    (activate_device dbC4b "d1" "LIFETIME_CCCCCCCC" (1000 + 2 * 86400)).1
      = { success := false,
          message :=
            "激活失败: UNIQUE constraint failed: device_activations.device_id" } ∧
    (activate_device dbC4b "d1" "LIFETIME_CCCCCCCC" (1000 + 2 * 86400)).2
      = dbC4b := by decide

/-- C5 counterexample: device `d1` holds an active binding, yet `activate`
with a well-formed code string that is not in the table returns the
not-found message, not the device-already-active message: the code lookup
precedes the device check. -/
theorem C5_counterexample :
    (dbC4a.device_activations.find?
      (fun r => r.device_id == "d1" && r.is_active)).isSome = true ∧
    (activate_device dbC4a "d1" "TRIAL_1D_ZZZZZZZZ" 2000).1.message
      = "兑换码不存在或已被使用" ∧
    ¬ (activate_device dbC4a "d1" "TRIAL_1D_ZZZZZZZZ" 2000).1.message
        = "该设备已激活，请勿重复激活" := by decide

end ActivationServer

namespace ActivationServer

/-- After the redemption `UPDATE`, no row with the redeemed code string is
still unused, so the `SELECT ... AND is_used = FALSE` lookup returns
nothing. -/
theorem find?_unused_after_redeem (rs : List CodeRecord) (d c : String)
    (t : Nat) :
    (redeem_code_update d c t rs).find?
      (fun r => r.code == c && !r.is_used) = none := by
  rw [List.find?_eq_none]
  intro x hx
  simp only [redeem_code_update, List.mem_map] at hx
  obtain ⟨a, _, rfl⟩ := hx
  by_cases h : a.code = c
  · simp [h]
  · simp [h]

/-- After the deactivation `UPDATE`, no row for the device is still
active. -/
theorem find?_active_after_deactivate (rs : List DeviceRecord) (d : String) :
    (deactivate_update d rs).find?
      (fun r => r.device_id == d && r.is_active) = none := by
  rw [List.find?_eq_none]
  intro x hx
  simp only [deactivate_update, List.mem_map] at hx
  obtain ⟨a, _, rfl⟩ := hx
  by_cases h : a.device_id = d
  · simp [h]
  · simp [h]

/-- C8 (confirmed): a code string outside the closed set of known starts is
rejected with the malformed-code message and the state is returned
untouched: both tables are exactly as before. -/
theorem C8_theorem (db : DB) (d c : String) (t : Nat)
    (h : valid_code_shape c = false) :
    (activate_device db d c t).1
      = { success := false, message := "兑换码格式错误" } ∧
    (activate_device db d c t).2 = db := by
  constructor
  · simp [activate_device, h]
  · simp [activate_device, h]

/-- C8 witness at the concrete malformed code string "HELLO". -/
theorem C8_witness :
    (activate_device {} "d1" "HELLO" 0).1
      = { success := false, message := "兑换码格式错误" } ∧
    (activate_device {} "d1" "HELLO" 0).2 = {} :=
  C8_theorem {} "d1" "HELLO" 0 (by decide)

end ActivationServer

namespace ActivationServer

/-- C1 amended: once any device has successfully redeemed a code via
`activate`, a later `activate` with the same code string by any device
fails, and the reason reported is the "code not found or already used"
message produced by the `SELECT ... AND is_used = FALSE` lookup — not the
quota-exhausted message. -/
theorem C1_theorem (db : DB) (d1 d2 c : String) (t1 t2 : Nat)
    (h : (activate_device db d1 c t1).1.success = true) :
    (activate_device (activate_device db d1 c t1).2 d2 c t2).1.success
      = false ∧
    (activate_device (activate_device db d1 c t1).2 d2 c t2).1.message
      = "兑换码不存在或已被使用" := by
  by_cases hv : valid_code_shape c = true
  case neg =>
    rw [Bool.not_eq_true] at hv
    simp [activate_device, hv] at h
  case pos =>
  rcases hfind : db.activation_codes.find?
      (fun r => r.code == c && !r.is_used) with _ | code_record
  · simp [activate_device, hv, hfind] at h
  · by_cases he : code_record.expires_at.any (fun e => e < t1) = true
    · simp [activate_device, hv, hfind, he] at h
    · rw [Bool.not_eq_true] at he
      by_cases hq : code_record.max_uses ≤ code_record.current_uses
      · simp [activate_device, hv, hfind, he, hq] at h
      · by_cases hd : (db.device_activations.find?
            (fun r => r.device_id == d1 && r.is_active)).isSome = true
        · simp [activate_device, hv, hfind, he, hq, hd] at h
        · rw [Bool.not_eq_true] at hd
          by_cases ha : db.device_activations.any
              (fun r => r.device_id == d1) = true
          · simp [activate_device, hv, hfind, he, hq, hd, ha] at h
          · rw [Bool.not_eq_true] at ha
            simp [activate_device, hv, hfind, he, hq, hd, ha,
              find?_unused_after_redeem]

/-- C1 witness: the single-use trial code scenario instantiating the
amended theorem. -/
theorem C1_witness :
    (activate_device (activate_device dbC1 "d1" "TRIAL_1D_AAAAAAAA" 100).2
        "d2" "TRIAL_1D_AAAAAAAA" 200).1.success = false ∧
    (activate_device (activate_device dbC1 "d1" "TRIAL_1D_AAAAAAAA" 100).2
        "d2" "TRIAL_1D_AAAAAAAA" 200).1.message = "兑换码不存在或已被使用" :=
  C1_theorem dbC1 "d1" "d2" "TRIAL_1D_AAAAAAAA" 100 200 (by decide)

/-- The device-activation row committed by the successful trial activation
in `dbC4a`. -/
def dbC4aBinding : DeviceRecord :=
  { device_id := "d1", activation_code := "TRIAL_1D_AAAAAAAA",
    license_type := "TRIAL_1D", activated_at := 1000, expires_at := 87400,
    last_seen := 1000 }

/-- C6 (confirmed): when `verify` finds the device's active row and `now`
is strictly past its `expires_at`, it answers invalid and flips
`is_active` to false, so any later `verify` — at any time, even an earlier
clock — also answers invalid: expiry is sticky. -/
theorem C6_theorem (db : DB) (d : String) (t1 t2 : Nat) (dr : DeviceRecord)
    (hfind : db.device_activations.find?
      (fun r => r.device_id == d && r.is_active) = some dr)
    (hexp : dr.expires_at < t1) :
    (verify_device db d t1).1.valid = false ∧
    (verify_device (verify_device db d t1).2 d t2).1.valid = false := by
  constructor
  · simp [verify_device, hfind, hexp]
  · simp [verify_device, hfind, hexp, find?_active_after_deactivate]

/-- C6 witness: the expired trial binding of `dbC4a`, verified one day past
its deadline and then again much later. -/
theorem C6_witness :
    (verify_device dbC4a "d1" 173800).1.valid = false ∧
    (verify_device (verify_device dbC4a "d1" 173800).2 "d1"
      999999999).1.valid = false :=
  C6_theorem dbC4a "d1" 173800 999999999 dbC4aBinding (by decide) (by decide)

end ActivationServer

namespace ActivationServer

/-- The three code checks that `activate_device` runs before it looks at
the device table: shape, the unused-row lookup, the validity window, and
the quota comparison. -/
def code_checks_pass (db : DB) (c : String) (now : Nat) : Bool :=
  valid_code_shape c &&
    match db.activation_codes.find? (fun r => r.code == c && !r.is_used) with
    | none => false
    | some r =>
        !(r.expires_at.any (fun e => e < now)) &&
          !(decide (r.max_uses ≤ r.current_uses))

/-- C5 amended: for a device holding an active binding, `activate` always
fails and leaves the state untouched, but the device-already-active message
is reported only when the code string passes the shape, lookup, expiry and
quota checks, which all run first; otherwise the code's own rejection is
reported. -/
theorem C5_theorem (db : DB) (d c : String) (t : Nat)
    (hd : (db.device_activations.find?
      (fun r => r.device_id == d && r.is_active)).isSome = true) :
    (activate_device db d c t).1.success = false ∧
    (activate_device db d c t).2 = db ∧
    ((activate_device db d c t).1.message = "该设备已激活，请勿重复激活"
      ↔ code_checks_pass db c t = true) := by
  by_cases hv : valid_code_shape c = true
  case neg =>
    rw [Bool.not_eq_true] at hv
    simp [activate_device, code_checks_pass, hv]
    try decide
  case pos =>
  rcases hfind : db.activation_codes.find?
      (fun r => r.code == c && !r.is_used) with _ | code_record
  · simp [activate_device, code_checks_pass, hv, hfind]
    try decide
  · by_cases he : code_record.expires_at.any (fun e => e < t) = true
    · simp [activate_device, code_checks_pass, hv, hfind, he]
      try decide
    · rw [Bool.not_eq_true] at he
      by_cases hq : code_record.max_uses ≤ code_record.current_uses
      · simp [activate_device, code_checks_pass, hv, hfind, he, hq]
        try decide
      · simp [activate_device, code_checks_pass, hv, hfind, he, hq, hd]

/-- C5 witness: the active binding of `dbC4a` with the stored (but
already-used) trial code string. -/
theorem C5_witness :
    (activate_device dbC4a "d1" "TRIAL_1D_AAAAAAAA" 2000).1.success
      = false ∧
    (activate_device dbC4a "d1" "TRIAL_1D_AAAAAAAA" 2000).2 = dbC4a ∧
    ((activate_device dbC4a "d1" "TRIAL_1D_AAAAAAAA" 2000).1.message
        = "该设备已激活，请勿重复激活"
      ↔ code_checks_pass dbC4a "TRIAL_1D_AAAAAAAA" 2000 = true) :=
  C5_theorem dbC4a "d1" "TRIAL_1D_AAAAAAAA" 2000 (by decide)

end ActivationServer

namespace ActivationServer

/-- When `verify_device` finds an active row that is not yet past its
deadline, it returns the full valid payload: kind, deadline, floored
remaining days, and the trial flag. -/
theorem verify_valid_of_unexpired (db : DB) (d : String) (t : Nat)
    (dr : DeviceRecord)
    (hfind : db.device_activations.find?
      (fun r => r.device_id == d && r.is_active) = some dr)
    (hexp : ¬ dr.expires_at < t) :
    (verify_device db d t).1
      = { valid := true, license_type := some dr.license_type,
          expires_at := some dr.expires_at,
          days_remaining := some ((dr.expires_at - t) / secondsPerDay),
          is_trial := dr.license_type == "TRIAL_1D" } := by
  simp [verify_device, hfind, hexp]

/-- The lifetime code as `generate_codes` would store it at issue time
`t0`. -/
def lifeCodeAt (t0 : Nat) : CodeRecord :=
  { code := "LIFETIME_CCCCCCCC", license_type := "LIFETIME",
    duration_days := 36500,
    expires_at := some (calculate_expiry_date 36500 t0),
    created_by := "admin" }

def dbLifeAt (t0 : Nat) : DB := { activation_codes := [lifeCodeAt t0] }

/-- C7 (confirmed): a device with an active, unexpired binding gets
`valid = true` with the binding's kind and deadline, remaining whole days
`floor((expiresAt - now) / day)`, and `isTrial` true iff the kind is
`TRIAL_1D`; and concretely, a `LIFETIME` activation at any time `t0`
(granting 36500 days) verified one day later reports 36499 days left. -/
theorem C7_theorem (db : DB) (d : String) (t : Nat) (dr : DeviceRecord)
    (t0 : Nat)
    (hfind : db.device_activations.find?
      (fun r => r.device_id == d && r.is_active) = some dr)
    (hexp : ¬ dr.expires_at < t) :
    (verify_device db d t).1
      = { valid := true, license_type := some dr.license_type,
          expires_at := some dr.expires_at,
          days_remaining := some ((dr.expires_at - t) / secondsPerDay),
          is_trial := dr.license_type == "TRIAL_1D" } ∧
    (activate_device (dbLifeAt t0) "dL" "LIFETIME_CCCCCCCC"
        t0).1.days_remaining = some 36500 ∧
    (verify_device (activate_device (dbLifeAt t0) "dL" "LIFETIME_CCCCCCCC"
        t0).2 "dL" (t0 + 86400)).1.valid = true ∧
    (verify_device (activate_device (dbLifeAt t0) "dL" "LIFETIME_CCCCCCCC"
        t0).2 "dL" (t0 + 86400)).1.days_remaining = some 36499 := by
  have hf : (dbLifeAt t0).activation_codes.find?
      (fun r => r.code == "LIFETIME_CCCCCCCC" && !r.is_used)
        = some (lifeCodeAt t0) := by
    simp [dbLifeAt, lifeCodeAt, List.find?]
  have he : (lifeCodeAt t0).expires_at.any (fun e => e < t0) = false := by
    simp [lifeCodeAt, calculate_expiry_date, secondsPerDay]
  have hq : ¬ (lifeCodeAt t0).max_uses ≤ (lifeCodeAt t0).current_uses := by
    simp [lifeCodeAt]
  have hvs : valid_code_shape "LIFETIME_CCCCCCCC" = true := by decide
  have hne : ¬ calculate_expiry_date 36500 t0 < t0 := by
    simp [calculate_expiry_date, secondsPerDay]
  have hact : activate_device (dbLifeAt t0) "dL" "LIFETIME_CCCCCCCC" t0
      = ({ success := true, message := "激活成功",
           license_type := some "LIFETIME",
           expires_at := some (calculate_expiry_date 36500 t0),
           days_remaining := some 36500 },
         { activation_codes :=
             redeem_code_update "dL" "LIFETIME_CCCCCCCC" t0
               (dbLifeAt t0).activation_codes,
           device_activations :=
             [new_device_row "dL" "LIFETIME_CCCCCCCC" "LIFETIME"
               (calculate_expiry_date 36500 t0) t0] }) := by
    simp [activate_device, hf, he, hq, hvs, hne, dbLifeAt, lifeCodeAt]
  have hfind2 : ((activate_device (dbLifeAt t0) "dL" "LIFETIME_CCCCCCCC"
      t0).2).device_activations.find?
        (fun r => r.device_id == "dL" && r.is_active)
      = some (new_device_row "dL" "LIFETIME_CCCCCCCC" "LIFETIME"
          (calculate_expiry_date 36500 t0) t0) := by
    rw [hact]
    simp [new_device_row, List.find?]
  have hexp2 : ¬ (new_device_row "dL" "LIFETIME_CCCCCCCC" "LIFETIME"
      (calculate_expiry_date 36500 t0) t0).expires_at < t0 + 86400 := by
    simp [new_device_row, calculate_expiry_date, secondsPerDay]
  refine ⟨verify_valid_of_unexpired db d t dr hfind hexp, ?_, ?_, ?_⟩
  · rw [hact]
  · rw [verify_valid_of_unexpired _ "dL" (t0 + 86400) _ hfind2 hexp2]
  · rw [verify_valid_of_unexpired _ "dL" (t0 + 86400) _ hfind2 hexp2]
    simp only [new_device_row, calculate_expiry_date, secondsPerDay]
    norm_num
    omega

end ActivationServer

namespace ActivationServer

def dbLife0A : DB :=
  (activate_device (dbLifeAt 0) "dL" "LIFETIME_CCCCCCCC" 0).2

/-- The binding committed by the lifetime activation at `t0 = 0`. -/
def lifeBinding0 : DeviceRecord :=
  new_device_row "dL" "LIFETIME_CCCCCCCC" "LIFETIME" 3153600000 0

/-- C7 witness: the lifetime binding created at time 0, verified one day
later. -/
theorem C7_witness :
    (verify_device dbLife0A "dL" 86400).1
      = { valid := true, license_type := some lifeBinding0.license_type,
          expires_at := some lifeBinding0.expires_at,
          days_remaining :=
            some ((lifeBinding0.expires_at - 86400) / secondsPerDay),
          is_trial := lifeBinding0.license_type == "TRIAL_1D" } ∧
    (activate_device (dbLifeAt 0) "dL" "LIFETIME_CCCCCCCC"
        0).1.days_remaining = some 36500 ∧
    (verify_device (activate_device (dbLifeAt 0) "dL" "LIFETIME_CCCCCCCC"
        0).2 "dL" (0 + 86400)).1.valid = true ∧
    (verify_device (activate_device (dbLifeAt 0) "dL" "LIFETIME_CCCCCCCC"
        0).2 "dL" (0 + 86400)).1.days_remaining = some 36499 :=
  C7_theorem dbLife0A "dL" 86400 lifeBinding0 0 (by decide) (by decide)

/-- The five random parts drawn by the issuance loop in the round-trip
scenario. -/
def weekRandom : Nat → String := fun i =>
  ["AAAA0001", "BBBB0002", "CCCC0003", "DDDD0004", "EEEE0005"].getD i
    "FFFF0006"

def weekIssue : GenerateResult :=
  generate_codes {} "WEEK_7D" 5 "admin" weekRandom 1000

def weekCodes : List String :=
  ["WEEK_7D_AAAA0001", "WEEK_7D_BBBB0002", "WEEK_7D_CCCC0003",
   "WEEK_7D_DDDD0004", "WEEK_7D_EEEE0005"]

def weekDB : DB :=
  match weekIssue with
  | GenerateResult.ok _ db => db
  | GenerateResult.httpError _ _ db => db

def weekDB1 : DB := (activate_device weekDB "w1" "WEEK_7D_AAAA0001" 1000).2

def weekDB2 : DB := (activate_device weekDB1 "w2" "WEEK_7D_BBBB0002" 1000).2

def weekDB3 : DB := (activate_device weekDB2 "w3" "WEEK_7D_CCCC0003" 1000).2

def weekDB4 : DB := (activate_device weekDB3 "w4" "WEEK_7D_DDDD0004" 1000).2

def weekDB5 : DB := (activate_device weekDB4 "w5" "WEEK_7D_EEEE0005" 1000).2

/-- C9 (confirmed): issuing five `WEEK_7D` codes produces five distinct
strings, all stored with the default quota `max_uses = 1` and a seven-day
duration; each is independently redeemable from the issued state and each
is redeemable exactly once — after the five redemptions every code rejects
any further attempt; each success grants `days_remaining = 7`; and an
unknown license kind is rejected with the 400 invalid-kind error, storing
nothing. -/
theorem C9_theorem :
    weekIssue = GenerateResult.ok weekCodes weekDB ∧
    weekCodes.Nodup ∧
    (∀ r ∈ weekDB.activation_codes,
      r.max_uses = 1 ∧ r.current_uses = 0 ∧ r.duration_days = 7) ∧
    (∀ c ∈ weekCodes, (activate_device weekDB "w0" c 1000).1.success = true
      ∧ (activate_device weekDB "w0" c 1000).1.days_remaining = some 7) ∧
    (activate_device weekDB "w1" "WEEK_7D_AAAA0001" 1000).1.days_remaining
      = some 7 ∧
    (activate_device weekDB1 "w2" "WEEK_7D_BBBB0002" 1000).1.days_remaining
      = some 7 ∧
    (activate_device weekDB2 "w3" "WEEK_7D_CCCC0003" 1000).1.days_remaining
      = some 7 ∧
    (activate_device weekDB3 "w4" "WEEK_7D_DDDD0004" 1000).1.days_remaining
      = some 7 ∧
    (activate_device weekDB4 "w5" "WEEK_7D_EEEE0005" 1000).1.days_remaining
      = some 7 ∧
    (∀ c ∈ weekCodes, (activate_device weekDB5 "w9" c 1000).1.success
      = false) ∧
    generate_codes {} "SUPER_1Y" 5 "admin" weekRandom 1000
      = GenerateResult.httpError 400 "无效的授权类型" {} := by decide

/-- The single random part drawn in the expiry scenarios. -/
def trialRandom : Nat → String := fun _ => "RRRR0000"

/-- The trial code row as stored by issuing at time `t0`. -/
def trialIssuedRec (t0 : Nat) : CodeRecord :=
  { code := "TRIAL_1D_RRRR0000", license_type := "TRIAL_1D",
    duration_days := 1, expires_at := some (t0 + 86400),
    created_by := "admin" }

def trialIssuedAt (t0 : Nat) : DB :=
  { activation_codes := [trialIssuedRec t0] }

/-- The week code row as stored by issuing at time `t0`. -/
def weekIssuedRec (t0 : Nat) : CodeRecord :=
  { code := "WEEK_7D_RRRR0000", license_type := "WEEK_7D",
    duration_days := 7, expires_at := some (t0 + 604800),
    created_by := "admin" }

def weekIssuedAt (t0 : Nat) : DB :=
  { activation_codes := [weekIssuedRec t0] }

/-- C10 (confirmed): `generate_codes` stamps each stored code with
`expires_at = issuance time + durationDays(kind)` — one day for `TRIAL_1D`,
seven for `WEEK_7D` — and `activate` rejects the code as expired once `now`
is past that deadline: one second past a day after issuance for the trial
code, one second past seven days for the week code. -/
theorem C10_theorem (t0 : Nat) (d : String) :
    generate_codes {} "TRIAL_1D" 1 "admin" trialRandom t0
      = GenerateResult.ok ["TRIAL_1D_RRRR0000"] (trialIssuedAt t0) ∧
    (activate_device (trialIssuedAt t0) d "TRIAL_1D_RRRR0000"
        (t0 + 86400 + 1)).1
      = { success := false, message := "兑换码已过期" } ∧
    generate_codes {} "WEEK_7D" 1 "admin" trialRandom t0
      = GenerateResult.ok ["WEEK_7D_RRRR0000"] (weekIssuedAt t0) ∧
    (activate_device (weekIssuedAt t0) d "WEEK_7D_RRRR0000"
        (t0 + 604800 + 1)).1
      = { success := false, message := "兑换码已过期" } := by
  have hft : (trialIssuedAt t0).activation_codes.find?
      (fun r => r.code == "TRIAL_1D_RRRR0000" && !r.is_used)
        = some (trialIssuedRec t0) := by
    simp [trialIssuedAt, trialIssuedRec, List.find?]
  have het : (trialIssuedRec t0).expires_at.any
      (fun e => e < t0 + 86400 + 1) = true := by
    show Option.any (fun e => decide (e < t0 + 86400 + 1))
      (some (t0 + 86400)) = true
    rw [Option.any_some, decide_eq_true_eq]
    exact Nat.lt_succ_self (t0 + 86400)
  have hfw : (weekIssuedAt t0).activation_codes.find?
      (fun r => r.code == "WEEK_7D_RRRR0000" && !r.is_used)
        = some (weekIssuedRec t0) := by
    simp [weekIssuedAt, weekIssuedRec, List.find?]
  have hew : (weekIssuedRec t0).expires_at.any
      (fun e => e < t0 + 604800 + 1) = true := by
    show Option.any (fun e => decide (e < t0 + 604800 + 1))
      (some (t0 + 604800)) = true
    rw [Option.any_some, decide_eq_true_eq]
    exact Nat.lt_succ_self (t0 + 604800)
  have hv1 : valid_code_shape "TRIAL_1D_RRRR0000" = true := by decide
  have hv2 : valid_code_shape "WEEK_7D_RRRR0000" = true := by decide
  refine ⟨rfl, ?_, rfl, ?_⟩
  · simp [activate_device, hft, het, hv1]
  · simp [activate_device, hfw, hew, hv2]

end ActivationServer
